import Mathlib

set_option maxHeartbeats 1000000
set_option maxRecDepth 100000

/-!
Shallow embedding of the transfer-submission core of the `usbw` repository
(`src/libusb/{error,transfer,safe_transfer,async_device,interfaces,device_handle}.rs`).
Bytes are modelled as `Nat`, byte buffers as `List Nat`, and the native libusb
driver's responses (submit results, completion status, actual length) are
passed in as explicit oracle parameters.
-/

namespace Usbw

/-- Error codes from `src/libusb/error.rs` (`enum Error`). -/
inductive Error where
  | Io
  | InvalidParam
  | Access
  | NoDevice
  | NotFound
  | Busy
  | Timeout
  | Overflow
  | Pipe
  | Interrupted
  | NoMem
  | NotSupported
  | BadDescriptor
  | Other
deriving DecidableEq, Repr

/-- Result of a Rust call that can return `Ok`, return `Err`, or panic
(the `unimplemented!` / `expect` arms are modelled by `panics`). -/
inductive RResult (α : Type) where
  | ok (a : α)
  | err (e : Error)
  | panics
deriving DecidableEq, Repr

/-- Transfer completion status from `src/libusb/transfer.rs` (`enum Status`). -/
inductive Status where
  | Completed
  | Error
  | TimedOut
  | Cancelled
  | Stall
  | NoDevice
  | Overflow
deriving DecidableEq, Repr

/-- `Status::from_i32` from `src/libusb/transfer.rs`. -/
def Status.from_i32 (i : Int) : Option Status :=
  if i = 0 then some Status.Completed
  else if i = 1 then some Status.Error
  else if i = 2 then some Status.TimedOut
  else if i = 3 then some Status.Cancelled
  else if i = 4 then some Status.Stall
  else if i = 5 then some Status.NoDevice
  else if i = 6 then some Status.Overflow
  else none

/-- Transfer kinds from `src/libusb/transfer.rs` (`enum TransferType`). -/
inductive TransferType where
  | Control
  | Isochronous
  | Bulk
  | Interrupt
  | Stream
deriving DecidableEq, Repr

/-- `libusb1_sys::constants::LIBUSB_ENDPOINT_DIR_MASK`. -/
def LIBUSB_ENDPOINT_DIR_MASK : Nat := 0x80

/-- `libusb1_sys::constants::LIBUSB_ENDPOINT_IN`. -/
def LIBUSB_ENDPOINT_IN : Nat := 0x80

/-- `libusb1_sys::constants::LIBUSB_ENDPOINT_OUT`. -/
def LIBUSB_ENDPOINT_OUT : Nat := 0x00

/-- `libusb1_sys::constants::LIBUSB_DT_STRING`. -/
def LIBUSB_DT_STRING : Nat := 0x03

/-- `libusb1_sys::constants::LIBUSB_REQUEST_GET_DESCRIPTOR`. -/
def LIBUSB_REQUEST_GET_DESCRIPTOR : Nat := 0x06

/-- `ControlSetup` from `src/libusb/transfer.rs`: `repr(C)` struct of
`{request_type: u8, request: u8, value: u16, index: u16, len: u16}`.
Field values are `Nat`s; range constraints (`< 256`, `< 65536`) appear as
hypotheses in the theorems. -/
structure ControlSetup where
  request_type : Nat
  request : Nat
  value : Nat
  index : Nat
  len : Nat
deriving DecidableEq, Repr

/-- `ControlSetup::SIZE = size_of::<ControlSetup>()`: the `repr(C)` layout is
`u8,u8,u16,u16,u16` with 2-byte alignment, offsets 0,1,2,4,6 and size 8. -/
def ControlSetup.SIZE : Nat := 8

/-- `ControlSetup::serialize`: converts each `u16` with `to_le` and does an
unaligned `repr(C)` store into the first 8 bytes of `buf`, so the emitted
bytes are the little-endian layout regardless of host endianness; bytes past
the header are untouched. The source asserts `buf.len() >= SIZE`; the model is
only used under that hypothesis. -/
def ControlSetup.serialize (c : ControlSetup) (buf : List Nat) : List Nat :=
  c.request_type :: c.request ::
  (c.value % 256) :: (c.value / 256) ::
  (c.index % 256) :: (c.index / 256) ::
  (c.len % 256) :: (c.len / 256) :: buf.drop 8

/-- `ControlSetup::deserialize`: unaligned `repr(C)` load of the first 8 bytes
followed by `u16::from_le` on each `u16` field, i.e. a little-endian read. -/
def ControlSetup.deserialize (buf : List Nat) : ControlSetup :=
  { request_type := buf.getD 0 0
    request := buf.getD 1 0
    value := buf.getD 2 0 + 256 * buf.getD 3 0
    index := buf.getD 4 0 + 256 * buf.getD 5 0
    len := buf.getD 6 0 + 256 * buf.getD 7 0 }

/-- `ControlSetup::is_read`: `request_type & LIBUSB_ENDPOINT_DIR_MASK == LIBUSB_ENDPOINT_IN`. -/
def ControlSetup.is_read (c : ControlSetup) : Bool :=
  (c.request_type &&& LIBUSB_ENDPOINT_DIR_MASK) == LIBUSB_ENDPOINT_IN

/-- `ControlSetup::is_write`: `request_type & LIBUSB_ENDPOINT_DIR_MASK == LIBUSB_ENDPOINT_OUT`. -/
def ControlSetup.is_write (c : ControlSetup) : Bool :=
  (c.request_type &&& LIBUSB_ENDPOINT_DIR_MASK) == LIBUSB_ENDPOINT_OUT

/-- The observable fields of the native `libusb_transfer` descriptor owned by a
`Transfer` (`src/libusb/transfer.rs`). The `transfer_type` raw byte is kept as
the parsed enum (every code path in scope writes it through `set_type`); the
completion `status` is kept as the raw `i32` the driver writes. -/
structure Transfer where
  transfer_type : TransferType
  endpoint : Nat
  timeout : Nat
  status : Int
  actual_length : Int
deriving DecidableEq, Repr

/-- `Transfer::new(0)`: `libusb_alloc_transfer` returns zeroed memory, so every
field starts at 0 (`transfer_type` 0 parses as `Control`). -/
def Transfer.new : Transfer :=
  { transfer_type := TransferType.Control
    endpoint := 0
    timeout := 0
    status := 0
    actual_length := 0 }

/-- `Transfer::status()`: parses the raw `i32` status field (`try_into().ok()`). -/
def Transfer.status_opt (t : Transfer) : Option Status :=
  Status.from_i32 t.status

/-- `Transfer::is_endpoint_read`: `endpoint & LIBUSB_ENDPOINT_DIR_MASK != LIBUSB_ENDPOINT_OUT`. -/
def Transfer.is_endpoint_read (t : Transfer) : Bool :=
  (t.endpoint &&& LIBUSB_ENDPOINT_DIR_MASK) != LIBUSB_ENDPOINT_OUT

/-- `Transfer::try_actual_length` from `src/libusb/transfer.rs` lines 239-251:
maps the parsed completion status to `Ok(actual_length)` or the matching error. -/
def Transfer.try_actual_length (t : Transfer) : Except Error Int :=
  match t.status_opt with
  | some Status.Completed => Except.ok t.actual_length
  | some Status.Error => Except.error Error.Io
  | some Status.Cancelled => Except.error Error.Io
  | some Status.TimedOut => Except.error Error.Timeout
  | some Status.Stall => Except.error Error.Pipe
  | some Status.NoDevice => Except.error Error.NoDevice
  | some Status.Overflow => Except.error Error.Overflow
  | none => Except.error Error.Other

/-- The state of a `SafeTransfer` (`src/libusb/safe_transfer.rs`): the owned
byte buffer, the owned `Transfer`, and the completion link's observable state:
`active` is `UserData.is_active` and `slot` records whether the single-slot
mpsc channel currently holds a completion notification. -/
structure SafeTransfer where
  buf : List Nat
  transfer : Transfer
  active : Bool
  slot : Bool
deriving DecidableEq, Repr

/-- `SafeTransfer::from_buf`: fresh zeroed `Transfer::new(0)` plus a fresh link
(`is_active` false, empty channel). -/
def SafeTransfer.from_buf (buf : List Nat) : SafeTransfer :=
  { buf := buf, transfer := Transfer.new, active := false, slot := false }

/-- `SafeTransfer::is_active`: reads the link's atomic flag. -/
def SafeTransfer.is_active (s : SafeTransfer) : Bool := s.active

/-- `SafeTransfer::set_active`. -/
def SafeTransfer.set_active (s : SafeTransfer) (b : Bool) : SafeTransfer :=
  { s with active := b }

/-- `UserData::send_completion` (the completion callback's body): stores
`is_active = false` and `try_send(())` on the capacity-1 channel (a failed
send, channel already full or receiver gone, is ignored). -/
def SafeTransfer.send_completion (s : SafeTransfer) : SafeTransfer :=
  { s with active := false, slot := true }

/-- `SafeTransfer::ensure_inactive` lines 173-179: `Busy` when a submission is
still pending. -/
def SafeTransfer.ensure_inactive (s : SafeTransfer) : Except Error Unit :=
  if s.is_active then Except.error Error.Busy else Except.ok ()

/-- `SafeTransfer::check_endpoint`: direction bit of the endpoint address must
match the requested direction. -/
def SafeTransfer.check_endpoint (s : SafeTransfer) (r : Bool) : Except Error Unit :=
  if s.transfer.is_endpoint_read != r then Except.error Error.InvalidParam
  else Except.ok ()

/-- `SafeTransfer::get_control_setup`: only deserializes when the buffer is
strictly larger than the header. -/
def SafeTransfer.get_control_setup (s : SafeTransfer) : Option ControlSetup :=
  if s.buf.length > ControlSetup.SIZE then some (ControlSetup.deserialize s.buf)
  else none

/-- `SafeTransfer::try_control_setup`: `NotFound` when no setup fits. -/
def SafeTransfer.try_control_setup (s : SafeTransfer) : Except Error ControlSetup :=
  match s.get_control_setup with
  | some c => Except.ok c
  | none => Except.error Error.NotFound

/-- `SafeTransfer::calculated_control_data_len`: `buf.len().saturating_sub(SIZE)`
(`Nat` subtraction is saturating). -/
def SafeTransfer.calculated_control_data_len (s : SafeTransfer) : Nat :=
  s.buf.length - ControlSetup.SIZE

/-- `SafeTransfer::check_control_setup` lines 232-244: busy check, setup
presence, direction bit of the setup's `request_type`, then the declared `len`
against the payload capacity. -/
def SafeTransfer.check_control_setup (s : SafeTransfer) (r : Bool) : Except Error Unit :=
  match s.ensure_inactive with
  | Except.error e => Except.error e
  | Except.ok _ =>
    match s.try_control_setup with
    | Except.error e => Except.error e
    | Except.ok control_setup =>
      if control_setup.is_read != r then Except.error Error.InvalidParam
      else if control_setup.len ≤ s.calculated_control_data_len then Except.ok ()
      else Except.error Error.Overflow

/-- `SafeTransfer::check_transfer` lines 260-269: control transfers go through
`check_control_setup` (which starts with the busy check), bulk and interrupt
only through `check_endpoint`; stream and isochronous hit `unimplemented!`. -/
def SafeTransfer.check_transfer (s : SafeTransfer) (r : Bool) : RResult Unit :=
  match s.transfer.transfer_type with
  | TransferType.Control =>
    match s.check_control_setup r with
    | Except.ok _ => RResult.ok ()
    | Except.error e => RResult.err e
  | TransferType.Bulk =>
    match s.check_endpoint r with
    | Except.ok _ => RResult.ok ()
    | Except.error e => RResult.err e
  | TransferType.Interrupt =>
    match s.check_endpoint r with
    | Except.ok _ => RResult.ok ()
    | Except.error e => RResult.err e
  | TransferType.Stream => RResult.panics
  | TransferType.Isochronous => RResult.panics

/-- `SafeTransfer::submit_asynchronously` lines 270-282. `driver` is the native
`libusb_submit_transfer` outcome. Returns the call result, the post-call state,
and whether the native submit was invoked at all. On native failure the active
flag is stored back to `false` before the error is returned. -/
def SafeTransfer.submit_asynchronously (s : SafeTransfer) (r : Bool)
    (driver : Except Error Unit) : RResult Unit × SafeTransfer × Bool :=
  match s.check_transfer r with
  | RResult.err e => (RResult.err e, s, false)
  | RResult.panics => (RResult.panics, s, false)
  | RResult.ok _ =>
    let s1 := s.set_active true
    match driver with
    | Except.ok _ => (RResult.ok (), s1, true)
    | Except.error e => (RResult.err e, s1.set_active false, true)

/-- `SafeTransfer::submit` lines 283-300 (the awaited path): synchronous
validation and native submit, then suspension until the completion callback has
written `completion_status`/`completion_len` into the descriptor and fired
`send_completion`, then `try_actual_length`. Returns (result, final state,
whether the native submit was invoked). -/
def SafeTransfer.submit (s : SafeTransfer) (r : Bool) (driver : Except Error Unit)
    (completion_status : Int) (completion_len : Int) :
    RResult Int × SafeTransfer × Bool :=
  match s.submit_asynchronously r driver with
  | (RResult.err e, s1, native) => (RResult.err e, s1, native)
  | (RResult.panics, s1, native) => (RResult.panics, s1, native)
  | (RResult.ok _, s1, native) =>
    let t2 := { s1.transfer with status := completion_status, actual_length := completion_len }
    let s2 := SafeTransfer.send_completion { s1 with transfer := t2 }
    match t2.try_actual_length with
    | Except.ok l => (RResult.ok l, s2, native)
    | Except.error e => (RResult.err e, s2, native)

/-- `SafeTransfer::set_control_setup`: serializes the header into the buffer,
`Overflow` when the buffer is not strictly larger than the header. -/
def SafeTransfer.set_control_setup (s : SafeTransfer) (c : ControlSetup) :
    Except Error SafeTransfer :=
  if s.buf.length > ControlSetup.SIZE then Except.ok { s with buf := c.serialize s.buf }
  else Except.error Error.Overflow

/-- `BulkType` from `src/libusb/async_device.rs`. -/
inductive BulkType where
  | Bulk
  | Interrupt
deriving DecidableEq, Repr

/-- `BulkType::transfer_type`. -/
def BulkType.transfer_type (b : BulkType) : TransferType :=
  match b with
  | BulkType.Bulk => TransferType.Bulk
  | BulkType.Interrupt => TransferType.Interrupt

/-- `AsyncDevice::control_read` lines 46-68: allocates a zeroed buffer of
`data.len() + ControlSetup::SIZE`, writes the setup (with `len = data.len()`,
panicking when it exceeds `u16`), and submits it via `submit_write` (declared
direction: write). Returns the result and whether the native submit was
invoked. -/
def AsyncDevice.control_read (request_type request value index : Nat)
    (data_len : Nat) (timeout : Nat) (driver : Except Error Unit)
    (completion_status completion_len : Int) : RResult Int × Bool :=
  if data_len > 65535 then (RResult.panics, false)
  else
    let s0 := SafeTransfer.from_buf (List.replicate (data_len + ControlSetup.SIZE) 0)
    let s1 := { s0 with transfer := { s0.transfer with timeout := timeout } }
    match s1.set_control_setup
        { request_type := request_type, request := request, value := value,
          index := index, len := data_len } with
    | Except.error e => (RResult.err e, false)
    | Except.ok s2 =>
      match s2.submit false driver completion_status completion_len with
      | (res, _, native) => (res, native)

/-- `AsyncDevice::bulk_type_read` lines 105-117: fresh `SafeTransfer` over the
caller's buffer, sets type/endpoint/timeout, then `submit_read`. -/
def AsyncDevice.bulk_type_read (bulk_type : BulkType) (endpoint : Nat)
    (data : List Nat) (timeout : Nat) (driver : Except Error Unit)
    (completion_status completion_len : Int) :
    RResult Int × SafeTransfer × Bool :=
  let s0 := SafeTransfer.from_buf data
  let s1 := { s0 with transfer :=
    { s0.transfer with transfer_type := bulk_type.transfer_type,
                       endpoint := endpoint, timeout := timeout } }
  s1.submit true driver completion_status completion_len

/-- `AsyncDevice::bulk_read`. -/
def AsyncDevice.bulk_read (endpoint : Nat) (data : List Nat) (timeout : Nat)
    (driver : Except Error Unit) (completion_status completion_len : Int) :
    RResult Int × SafeTransfer × Bool :=
  AsyncDevice.bulk_type_read BulkType.Bulk endpoint data timeout driver
    completion_status completion_len

/-- `AsyncDevice::get_string_descriptor_bytes` lines 158-176: guards
`desc_index == 0` with `InvalidParam` before any transfer, otherwise a
`control_read` with `request_type = LIBUSB_ENDPOINT_IN`. -/
def AsyncDevice.get_string_descriptor_bytes (desc_index : Nat) (langid : Nat)
    (data_len : Nat) (driver : Except Error Unit)
    (completion_status completion_len : Int) : RResult Int × Bool :=
  if desc_index == 0 then (RResult.err Error.InvalidParam, false)
  else
    AsyncDevice.control_read LIBUSB_ENDPOINT_IN LIBUSB_REQUEST_GET_DESCRIPTOR
      ((LIBUSB_DT_STRING <<< 8) ||| desc_index) langid data_len 1000 driver
      completion_status completion_len

/-- `AsyncDevice::get_string_descriptor` lines 177-188: 255-byte buffer, then
`get_string_descriptor_bytes`; the UTF-8 conversion of the returned bytes is
not modelled beyond the length result (it is unreachable from
`get_string_descriptor_ascii`, whose first step always errors). -/
def AsyncDevice.get_string_descriptor (desc_index : Nat) (langid : Nat)
    (driver : Except Error Unit) (completion_status completion_len : Int) :
    RResult Int :=
  (AsyncDevice.get_string_descriptor_bytes desc_index langid 255 driver
    completion_status completion_len).1

/-- `AsyncDevice::get_string_descriptor_ascii` lines 189-200: first fetches the
language-ID table via `get_string_descriptor_bytes(0, 0, ..)` into a 2-byte
buffer, demands exactly 2 bytes, then fetches the string itself. `langid_oracle`
stands for the language id decoded from the (never reached) first read. -/
def AsyncDevice.get_string_descriptor_ascii (desc_index : Nat)
    (driver1 : Except Error Unit) (cs1 cl1 : Int) (langid_oracle : Nat)
    (driver2 : Except Error Unit) (cs2 cl2 : Int) : RResult Int :=
  match AsyncDevice.get_string_descriptor_bytes 0 0 2 driver1 cs1 cl1 with
  | (RResult.err e, _) => RResult.err e
  | (RResult.panics, _) => RResult.panics
  | (RResult.ok l, _) =>
    if l != 2 then RResult.err Error.BadDescriptor
    else AsyncDevice.get_string_descriptor desc_index langid_oracle driver2 cs2 cl2

/-- `INTERFACES_BYTE_LEN` from `src/libusb/interfaces.rs`: `(0xFF + 1) / 8 = 32`. -/
def INTERFACES_BYTE_LEN : Nat := 32

namespace ClaimedInterfaces

/-- `ClaimedInterfaces::new()` / `DEFAULT`: 32 zero bytes. -/
def empty : List Nat := List.replicate INTERFACES_BYTE_LEN 0

/-- `ClaimedInterfaces::byte_index`. -/
def byte_index (n : Nat) : Nat := n / 8

/-- `ClaimedInterfaces::bit_index`. -/
def bit_index (n : Nat) : Nat := n % 8

/-- `ClaimedInterfaces::claim`: `bytes[n/8] |= 1 << (n%8)`. -/
def claim (c : List Nat) (n : Nat) : List Nat :=
  c.set (byte_index n) (c.getD (byte_index n) 0 ||| (1 <<< bit_index n))

/-- `ClaimedInterfaces::is_claimed`: `bytes[n/8] & (1 << (n%8)) != 0`. -/
def is_claimed (c : List Nat) (n : Nat) : Bool :=
  (c.getD (byte_index n) 0 &&& (1 <<< bit_index n)) != 0

/-- `ClaimedInterfaces::release`: `bytes[n/8] &= !(1 << (n%8))` where `!` is the
`u8` bitwise complement, i.e. xor with `0xFF`. -/
def release (c : List Nat) (n : Nat) : List Nat :=
  c.set (byte_index n) (c.getD (byte_index n) 0 &&& (255 ^^^ (1 <<< bit_index n)))

/-- `ClaimedInterfaces::any_claimed`. -/
def any_claimed (c : List Nat) : Bool := c.any (fun b => b != 0)

/-- `ClaimedInterfaces::none_claimed`. -/
def none_claimed (c : List Nat) : Bool := c.all (fun b => b == 0)

/-- The inner loop of `Iterator::next` for `ClaimedInterfaces`
(`for i in (0..8).rev() { if *b > (1 << i) { *b -= 1 << i; return Some(index + i) } }`):
returns the first (largest) `i < 8` with `b > 2^i` together with the decremented
byte, or `none` when the loop falls through. -/
def findSub (b : Nat) : Option (Nat × Nat) :=
  if b > 128 then some (7, b - 128)
  else if b > 64 then some (6, b - 64)
  else if b > 32 then some (5, b - 32)
  else if b > 16 then some (4, b - 16)
  else if b > 8 then some (3, b - 8)
  else if b > 4 then some (2, b - 4)
  else if b > 2 then some (1, b - 2)
  else if b > 1 then some (0, b - 1)
  else none

/-- The outer loop of `Iterator::next` for `ClaimedInterfaces` lines 35-54:
walks the bytes carrying the running `index`; a zero byte advances `index` by 8
(breaking at `index >= 0xFF - 8`); a nonzero byte runs the inner scan and, when
the scan falls through (which happens for bytes 1 and 2), moves on to the next
byte without advancing `index`. Returns the yielded item and the updated bytes. -/
def nextAux : List Nat → Nat → Option Nat × List Nat
  | [], _ => (none, [])
  | b :: rest, index =>
    if b == 0 then
      if index ≥ 0xFF - 8 then (none, b :: rest)
      else
        let r := nextAux rest (index + 8)
        (r.1, b :: r.2)
    else
      match findSub b with
      | some (i, b2) => (some (index + i), b2 :: rest)
      | none =>
        let r := nextAux rest index
        (r.1, b :: r.2)

/-- `Iterator::next` for `ClaimedInterfaces`. -/
def next (c : List Nat) : Option Nat × List Nat := nextAux c 0

end ClaimedInterfaces

/-- The bookkeeping state of `DeviceHandle` (`src/libusb/device_handle.rs`):
its claimed-interface bitset. -/
structure DeviceHandle where
  interfaces : List Nat
deriving DecidableEq, Repr

/-- `DeviceHandle::claim_interface` lines 275-285. `native` is the outcome of
`libusb_claim_interface`; the returned `Nat` counts how many native claim calls
were issued. An already-claimed interface short-circuits to `Ok` with no native
call; a native failure returns before the set is updated. -/
def DeviceHandle.claim_interface (d : DeviceHandle) (n : Nat)
    (native : Except Error Unit) : Except Error Unit × DeviceHandle × Nat :=
  if ClaimedInterfaces.is_claimed d.interfaces n then (Except.ok (), d, 0)
  else
    match native with
    | Except.error e => (Except.error e, d, 1)
    | Except.ok _ => (Except.ok (), { interfaces := ClaimedInterfaces.claim d.interfaces n }, 1)

/-- `DeviceHandle::release_interface` lines 286-296, mirror image of
`claim_interface`. -/
def DeviceHandle.release_interface (d : DeviceHandle) (n : Nat)
    (native : Except Error Unit) : Except Error Unit × DeviceHandle × Nat :=
  if !(ClaimedInterfaces.is_claimed d.interfaces n) then (Except.ok (), d, 0)
  else
    match native with
    | Except.error e => (Except.error e, d, 1)
    | Except.ok _ => (Except.ok (), { interfaces := ClaimedInterfaces.release d.interfaces n }, 1)

deriving instance DecidableEq for Except

/-- Events observable at a `SafeTransfer`'s completion link: a submit call
(with the requested direction and the native driver's response) or the firing
of the native completion callback. -/
inductive Event where
  | submit (r : Bool) (driver : Except Error Unit)
  | callback
deriving DecidableEq, Repr

/-- One step of the `SafeTransfer` link machine, paired with a ghost counter of
submissions that are pending with their callback not yet fired: a submit that
reaches the native layer and succeeds increments it, the callback decrements it. -/
def ghostStep : SafeTransfer × Nat → Event → SafeTransfer × Nat
  | (s, p), Event.submit r driver =>
    match s.submit_asynchronously r driver with
    | (RResult.ok _, s2, _) => (s2, p + 1)
    | (RResult.err _, s2, _) => (s2, p)
    | (RResult.panics, s2, _) => (s2, p)
  | (s, p), Event.callback => (s.send_completion, p - 1)

/-- Runs a list of events through `ghostStep`. -/
def ghostRun (sp : SafeTransfer × Nat) : List Event → SafeTransfer × Nat
  | [] => sp
  | e :: rest => ghostRun (ghostStep sp e) rest

/-- Protocol-respecting traces: the driver fires the callback exactly once per
pending submission, and the caller holds the one-submission-in-flight rule
(submit only when nothing is pending) that the spec's concurrency rule imposes. -/
def wfTrace (sp : SafeTransfer × Nat) : List Event → Bool
  | [] => true
  | e :: rest =>
    (match e with
     | Event.submit _ _ => sp.2 == 0
     | Event.callback => sp.2 == 1) && wfTrace (ghostStep sp e) rest

/-- A `SafeTransfer` configured for a bulk transfer on IN endpoint `0x81` with
a submission currently pending (`active` true). -/
def pendingBulk : SafeTransfer :=
  { buf := [0, 0]
    transfer := { transfer_type := TransferType.Bulk, endpoint := 0x81,
                  timeout := 0, status := 0, actual_length := 0 }
    active := true, slot := false }

/-- A control `SafeTransfer` (9-byte buffer) with a submission pending. -/
def pendingControl : SafeTransfer :=
  { buf := List.replicate 9 0, transfer := Transfer.new, active := true, slot := false }

/-- An inactive control `SafeTransfer` whose 7-byte buffer is smaller than the
`ControlSetup` header. -/
def smallControl : SafeTransfer :=
  { buf := List.replicate 7 0, transfer := Transfer.new, active := false, slot := false }

/-- An inactive control `SafeTransfer` with a 12-byte buffer holding a
serialized write setup (`request_type 0x20`, declared `len` 4 = payload room). -/
def goodControl : SafeTransfer :=
  { buf := ControlSetup.serialize
      { request_type := 0x20, request := 1, value := 2, index := 3, len := 4 }
      (List.replicate 12 0)
    transfer := Transfer.new, active := false, slot := false }

/-- An inactive bulk `SafeTransfer` on IN endpoint `0x81` over a 3-byte buffer. -/
def freshBulk : SafeTransfer :=
  { buf := [0, 0, 0]
    transfer := { transfer_type := TransferType.Bulk, endpoint := 0x81,
                  timeout := 1000, status := 0, actual_length := 0 }
    active := false, slot := false }

/-! Helper lemmas: `List.getD`/`List.set` bookkeeping and `u8` bit facts
(the latter decided exhaustively over the byte range). -/

theorem getD_set_self (l : List Nat) (i v : Nat) (h : i < l.length) :
    (l.set i v).getD i 0 = v := by
  rw [List.getD_eq_getElem?_getD, List.getElem?_set_self h]
  rfl

theorem getD_set_ne (l : List Nat) (i j v : Nat) (h : i ≠ j) :
    (l.set i v).getD j 0 = l.getD j 0 := by
  rw [List.getD_eq_getElem?_getD, List.getElem?_set_ne h, ← List.getD_eq_getElem?_getD]

theorem set_getD_self_eq (l : List Nat) (i : Nat) (h : i < l.length) :
    l.set i (l.getD i 0) = l := by
  induction l generalizing i with
  | nil => simp at h
  | cons a t ih =>
    cases i with
    | zero => rfl
    | succ k =>
      have hk : k < t.length := Nat.lt_of_succ_lt_succ (by simpa using h)
      calc (a :: t).set (k + 1) ((a :: t).getD (k + 1) 0)
          = a :: t.set k (t.getD k 0) := by simp [List.getD_cons_succ]
        _ = a :: t := by rw [ih k hk]

theorem getD_lt_256 (c : List Nat) (hbytes : ∀ b ∈ c, b < 256) (i : Nat) :
    c.getD i 0 < 256 := by
  by_cases h : i < c.length
  · have heq : c.getD i 0 = c.get ⟨i, h⟩ := by
      rw [List.getD_eq_getElem?_getD, List.getElem?_eq_getElem h]
      rfl
    rw [heq]
    exact hbytes _ (List.get_mem c i h)
  · have hlen : c.length ≤ i := Nat.le_of_not_lt h
    rw [List.getD_eq_getElem?_getD, List.getElem?_eq_none hlen]
    decide

theorem byte_lor_bit_idem :
    ∀ b < 256, ∀ k < 8, (b ||| (1 <<< k)) ||| (1 <<< k) = b ||| (1 <<< k) := by decide

theorem byte_lor_bit_test :
    ∀ b < 256, ∀ k < 8, (b ||| (1 <<< k)) &&& (1 <<< k) ≠ 0 := by decide

theorem byte_lor_bit_other :
    ∀ b < 256, ∀ k < 8, ∀ j < 8, j ≠ k →
      (b ||| (1 <<< k)) &&& (1 <<< j) = b &&& (1 <<< j) := by decide

theorem byte_release_noop :
    ∀ b < 256, ∀ k < 8, b &&& (1 <<< k) = 0 → b &&& (255 ^^^ (1 <<< k)) = b := by decide

theorem byte_release_clears :
    ∀ b < 256, ∀ k < 8, (b &&& (255 ^^^ (1 <<< k))) &&& (1 <<< k) = 0 := by decide

theorem byte_nonzero_has_bit :
    ∀ b < 256, b ≠ 0 → ∃ k, k < 8 ∧ b &&& (1 <<< k) ≠ 0 := by decide

/-- C1: on a `SafeTransfer` with a submission pending (`active` true) the code
returns `Busy` before any native interaction only for control transfers: a
second submit of a pending bulk transfer (`pendingBulk`, endpoint `0x81`,
requested direction read) passes `check_transfer`, proceeds to the native
submit (third component `true`) and does not return `Busy`, while the control
case (`pendingControl`) does return `Busy` with no native call. -/
theorem C1_second_submit_busy_only_for_control :
    pendingBulk.is_active = true
    ∧ (pendingBulk.submit_asynchronously true (Except.ok ())).1 = RResult.ok ()
    ∧ (pendingBulk.submit_asynchronously true (Except.ok ())).2.2 = true
    ∧ (pendingBulk.submit_asynchronously true (Except.ok ())).1 ≠ RResult.err Error.Busy
    ∧ pendingControl.is_active = true
    ∧ (pendingControl.submit_asynchronously false (Except.ok ())).1 = RResult.err Error.Busy
    ∧ (pendingControl.submit_asynchronously false (Except.ok ())).2.2 = false := by
  decide

/-- C2: `AsyncDevice::control_read` with a `request_type` whose direction bit
encodes IN (`0x80`) is rejected synchronously with `InvalidParam` and no native
submission (the code submits through `submit_write`, declared direction write,
so the IN setup mismatches), contradicting the claim that an IN `request_type`
passes direction validation; the same call with an OUT `request_type` (`0x20`)
does pass validation and reaches the native submit. -/
theorem C2_control_read_in_direction_rejected :
    (AsyncDevice.control_read 0x80 0x06 0x0302 0 2 1000 (Except.ok ()) 0 2).1
      = RResult.err Error.InvalidParam
    ∧ (AsyncDevice.control_read 0x80 0x06 0x0302 0 2 1000 (Except.ok ()) 0 2).2 = false
    ∧ (AsyncDevice.control_read 0x20 0x06 0x0302 0 2 1000 (Except.ok ()) 0 2).1
      = RResult.ok 2
    ∧ (AsyncDevice.control_read 0x20 0x06 0x0302 0 2 1000 (Except.ok ()) 0 2).2 = true := by
  decide

/-- C4 counterexample: submitting a control transfer whose 7-byte buffer is
smaller than the `ControlSetup` header returns `NotFound` (from
`try_control_setup`), not the `Overflow` the claim states, with no native
submission. -/
theorem C4_small_buffer_yields_not_found :
    (smallControl.submit false (Except.ok ()) 0 0).1 = RResult.err Error.NotFound
    ∧ (smallControl.submit false (Except.ok ()) 0 0).2.2 = false
    ∧ ((RResult.err Error.NotFound : RResult Int) ≠ (RResult.err Error.Overflow : RResult Int)) := by
  decide

/-- C4 (amended): for an inactive control `SafeTransfer`, a buffer not strictly
larger than the header makes `check_control_setup` return `NotFound`; when a
setup is present and its direction matches, a declared `len` exceeding
`buf.len() - SIZE` yields `Overflow` and otherwise the length validation
passes. -/
theorem C4_control_length_validation (s : SafeTransfer) (r : Bool)
    (hact : s.active = false) :
    (s.buf.length ≤ ControlSetup.SIZE →
      s.check_control_setup r = Except.error Error.NotFound)
    ∧ (s.buf.length > ControlSetup.SIZE →
        (ControlSetup.deserialize s.buf).is_read = r →
        ((s.calculated_control_data_len < (ControlSetup.deserialize s.buf).len →
            s.check_control_setup r = Except.error Error.Overflow)
         ∧ ((ControlSetup.deserialize s.buf).len ≤ s.calculated_control_data_len →
            s.check_control_setup r = Except.ok ()))) := by
  have hinact : s.ensure_inactive = Except.ok () := by
    simp [SafeTransfer.ensure_inactive, SafeTransfer.is_active, hact]
  constructor
  · intro hlen
    have hno : s.get_control_setup = none := by
      simp [SafeTransfer.get_control_setup, Nat.not_lt.mpr hlen]
    simp [SafeTransfer.check_control_setup, hinact, SafeTransfer.try_control_setup, hno]
  · intro hlen hdir
    have hsome : s.get_control_setup = some (ControlSetup.deserialize s.buf) := by
      simp [SafeTransfer.get_control_setup, hlen]
    constructor
    · intro hover
      simp [SafeTransfer.check_control_setup, hinact, SafeTransfer.try_control_setup,
        hsome, hdir, Nat.not_le.mpr hover]
    · intro hfit
      simp [SafeTransfer.check_control_setup, hinact, SafeTransfer.try_control_setup,
        hsome, hdir, hfit]

/-- C4 witness: the amended statement applied to the concrete inactive control
transfer `goodControl` (12-byte buffer, matching write direction, declared
length 4 = payload capacity): validation passes. -/
theorem C4_control_length_validation_witness :
    goodControl.active = false
    ∧ goodControl.buf.length > ControlSetup.SIZE
    ∧ (ControlSetup.deserialize goodControl.buf).is_read = false
    ∧ (ControlSetup.deserialize goodControl.buf).len ≤ goodControl.calculated_control_data_len
    ∧ goodControl.check_control_setup false = Except.ok () :=
  ⟨by decide, by decide, by decide, by decide,
    ((C4_control_length_validation goodControl false (by decide)).2
      (by decide) (by decide)).2 (by decide)⟩

/-- C6: the draining iterator is broken: with only interface 6 claimed,
`next()` returns `Some(5)` (not `Some(6)` as the repository's own unit test
`test_claimed_claim_interfaces` asserts), and it leaves bit 5 set, so interface
6 is never yielded and interface 5 is yielded despite never being claimed. -/
theorem C6_next_returns_wrong_interface :
    (ClaimedInterfaces.next (ClaimedInterfaces.claim ClaimedInterfaces.empty 6)).1 = some 5
    ∧ (ClaimedInterfaces.next (ClaimedInterfaces.claim ClaimedInterfaces.empty 6)).1 ≠ some 6
    ∧ ClaimedInterfaces.is_claimed
        (ClaimedInterfaces.next (ClaimedInterfaces.claim ClaimedInterfaces.empty 6)).2 5 = true
    ∧ ClaimedInterfaces.is_claimed
        (ClaimedInterfaces.next (ClaimedInterfaces.claim ClaimedInterfaces.empty 6)).2 6 = false := by
  decide

/-- C10: `get_string_descriptor_bytes` with `desc_index = 0` fails with
`InvalidParam` before any transfer is submitted, and therefore
`get_string_descriptor_ascii` (whose first step reads the language-ID table
with `desc_index` 0) returns `InvalidParam` for every input, whatever the
driver would have answered. -/
theorem C10_string_descriptor_ascii_dead (langid data_len : Nat)
    (d1 d2 : Except Error Unit) (cs1 cl1 cs2 cl2 : Int) (desc_index lid : Nat) :
    AsyncDevice.get_string_descriptor_bytes 0 langid data_len d1 cs1 cl1
      = (RResult.err Error.InvalidParam, false)
    ∧ AsyncDevice.get_string_descriptor_ascii desc_index d1 cs1 cl1 lid d2 cs2 cl2
      = RResult.err Error.InvalidParam := by
  exact ⟨rfl, rfl⟩

/-- C10 witness: the theorem applied at concrete arguments. -/
theorem C10_string_descriptor_ascii_dead_witness :
    AsyncDevice.get_string_descriptor_bytes 0 9 4 (Except.ok ()) 0 2
      = (RResult.err Error.InvalidParam, false)
    ∧ AsyncDevice.get_string_descriptor_ascii 3 (Except.ok ()) 0 2 1033 (Except.ok ()) 0 2
      = RResult.err Error.InvalidParam :=
  C10_string_descriptor_ascii_dead 9 4 (Except.ok ()) (Except.ok ()) 0 2 0 2 3 1033

/-- C3: for every awaited submission that passes validation and is accepted by
the driver, the caller's result is determined by the completion status the
driver writes (raw codes: Completed 0, TimedOut 2, Stall 4, NoDevice 5,
Cancelled 3, Overflow 6): Completed maps to `Ok(actual_length)`, TimedOut to
`Timeout`, Stall to `Pipe`, NoDevice to `NoDevice`, Cancelled to `Io`,
Overflow to `Overflow`; in particular a `bulk_read` on endpoint `0x81` whose
completion reports TimedOut with `actual_length` 0 returns `Err(Timeout)`. -/
theorem C3_completion_status_mapping :
    (∀ (s : SafeTransfer) (r : Bool) (l : Int),
      s.check_transfer r = RResult.ok () →
        (s.submit r (Except.ok ()) 0 l).1 = RResult.ok l
        ∧ (s.submit r (Except.ok ()) 2 l).1 = RResult.err Error.Timeout
        ∧ (s.submit r (Except.ok ()) 4 l).1 = RResult.err Error.Pipe
        ∧ (s.submit r (Except.ok ()) 5 l).1 = RResult.err Error.NoDevice
        ∧ (s.submit r (Except.ok ()) 3 l).1 = RResult.err Error.Io
        ∧ (s.submit r (Except.ok ()) 6 l).1 = RResult.err Error.Overflow)
    ∧ (AsyncDevice.bulk_read 0x81 [0, 0, 0] 1000 (Except.ok ()) 2 0).1
      = RResult.err Error.Timeout := by
  constructor
  · intro s r l h
    refine ⟨?_, ?_, ?_, ?_, ?_, ?_⟩ <;>
      simp [SafeTransfer.submit, SafeTransfer.submit_asynchronously, h,
        SafeTransfer.set_active, SafeTransfer.send_completion,
        Transfer.try_actual_length, Transfer.status_opt, Status.from_i32]
  · decide

/-- C3 witness: the mapping applied to the concrete inactive bulk-read
transfer `freshBulk` with completion status TimedOut (raw 2). -/
theorem C3_completion_status_mapping_witness :
    freshBulk.check_transfer true = RResult.ok ()
    ∧ (freshBulk.submit true (Except.ok ()) 2 7).1 = RResult.err Error.Timeout :=
  ⟨by decide, (C3_completion_status_mapping.1 freshBulk true 7 (by decide)).2.1⟩

/-- C9: for every `ControlSetup` with in-range fields and every buffer of at
least `ControlSetup::SIZE` bytes, `deserialize (serialize s buf) = s`, and the
serialized layout is the little-endian wire format: byte 0 `request_type`,
byte 1 `request`, then `value`, `index`, `len` as little-endian byte pairs. -/
theorem C9_control_setup_roundtrip (s : ControlSetup) (buf : List Nat)
    (hbuf : buf.length ≥ ControlSetup.SIZE)
    (hrt : s.request_type < 256) (hrq : s.request < 256)
    (hv : s.value < 65536) (hi : s.index < 65536) (hl : s.len < 65536) :
    ControlSetup.deserialize (s.serialize buf) = s
    ∧ (s.serialize buf).take 8 =
      [s.request_type, s.request,
       s.value % 256, s.value / 256,
       s.index % 256, s.index / 256,
       s.len % 256, s.len / 256] := by
  constructor
  · have hv2 : s.value % 256 + 256 * (s.value / 256) = s.value := by omega
    have hi2 : s.index % 256 + 256 * (s.index / 256) = s.index := by omega
    have hl2 : s.len % 256 + 256 * (s.len / 256) = s.len := by omega
    simp [ControlSetup.serialize, ControlSetup.deserialize, List.getD, hv2, hi2, hl2]
  · simp [ControlSetup.serialize]

/-- C9 witness: the round trip at the spec's concrete header
`{request_type := 0x20, request := 0, value := 0, index := 0, len := 3}` over
an 8-byte buffer. -/
theorem C9_control_setup_roundtrip_witness :
    (List.replicate 8 0).length ≥ ControlSetup.SIZE
    ∧ ControlSetup.deserialize
        (ControlSetup.serialize
          { request_type := 0x20, request := 0, value := 0, index := 0, len := 3 }
          (List.replicate 8 0))
      = { request_type := 0x20, request := 0, value := 0, index := 0, len := 3 }
    ∧ (ControlSetup.serialize
        { request_type := 0x20, request := 0, value := 0, index := 0, len := 3 }
        (List.replicate 8 0)).take 8 = [0x20, 0, 0, 0, 0, 0, 3, 0] :=
  ⟨by decide,
    (C9_control_setup_roundtrip _ _ (by decide) (by decide) (by decide)
      (by decide) (by decide) (by decide)).1,
    (C9_control_setup_roundtrip _ _ (by decide) (by decide) (by decide)
      (by decide) (by decide) (by decide)).2⟩

/-- C8: at the session layer, `claim_interface` on an already-claimed interface
and `release_interface` on an unclaimed one return `Ok` with zero native calls
and an unchanged session; a successful native claim marks the interface
claimed (one native call) and a successful native release marks it unclaimed. -/
theorem C8_session_claim_release (d : DeviceHandle) (n : Nat)
    (hlen : d.interfaces.length = 32)
    (hbytes : ∀ b ∈ d.interfaces, b < 256) (hn : n < 256) :
    (∀ native, ClaimedInterfaces.is_claimed d.interfaces n = true →
        d.claim_interface n native = (Except.ok (), d, 0))
    ∧ (∀ native, ClaimedInterfaces.is_claimed d.interfaces n = false →
        d.release_interface n native = (Except.ok (), d, 0))
    ∧ (ClaimedInterfaces.is_claimed d.interfaces n = false →
        (d.claim_interface n (Except.ok ())).1 = Except.ok ()
        ∧ (d.claim_interface n (Except.ok ())).2.2 = 1
        ∧ ClaimedInterfaces.is_claimed
            (d.claim_interface n (Except.ok ())).2.1.interfaces n = true)
    ∧ (ClaimedInterfaces.is_claimed d.interfaces n = true →
        (d.release_interface n (Except.ok ())).1 = Except.ok ()
        ∧ (d.release_interface n (Except.ok ())).2.2 = 1
        ∧ ClaimedInterfaces.is_claimed
            (d.release_interface n (Except.ok ())).2.1.interfaces n = false) := by
  have hdiv : n / 8 < d.interfaces.length := by rw [hlen]; omega
  have hmod : n % 8 < 8 := Nat.mod_lt _ (by omega)
  have hbyte : d.interfaces.getD (n / 8) 0 < 256 := getD_lt_256 _ hbytes _
  refine ⟨?_, ?_, ?_, ?_⟩
  · intro native h
    simp [DeviceHandle.claim_interface, h]
  · intro native h
    simp [DeviceHandle.release_interface, h]
  · intro h
    have hstep : d.claim_interface n (Except.ok ()) =
        (Except.ok (), { interfaces := ClaimedInterfaces.claim d.interfaces n }, 1) := by
      simp [DeviceHandle.claim_interface, h]
    refine ⟨by rw [hstep], by rw [hstep], ?_⟩
    rw [hstep]
    unfold ClaimedInterfaces.is_claimed ClaimedInterfaces.claim
      ClaimedInterfaces.byte_index ClaimedInterfaces.bit_index
    rw [getD_set_self _ _ _ hdiv]
    simpa [bne_iff_ne] using byte_lor_bit_test _ hbyte _ hmod
  · intro h
    have hstep : d.release_interface n (Except.ok ()) =
        (Except.ok (), { interfaces := ClaimedInterfaces.release d.interfaces n }, 1) := by
      simp [DeviceHandle.release_interface, h]
    refine ⟨by rw [hstep], by rw [hstep], ?_⟩
    rw [hstep]
    unfold ClaimedInterfaces.is_claimed ClaimedInterfaces.release
      ClaimedInterfaces.byte_index ClaimedInterfaces.bit_index
    rw [getD_set_self _ _ _ hdiv]
    simpa [bne_iff_ne] using byte_release_clears _ hbyte _ hmod

/-- C8 witness: a fresh session (`empty` bitset): claiming interface 6
succeeds with one native call and marks it claimed. -/
theorem C8_session_claim_release_witness :
    (ClaimedInterfaces.empty.length = 32)
    ∧ (∀ b ∈ ClaimedInterfaces.empty, b < 256)
    ∧ ClaimedInterfaces.is_claimed ClaimedInterfaces.empty 6 = false
    ∧ ((DeviceHandle.mk ClaimedInterfaces.empty).claim_interface 6 (Except.ok ())).1 = Except.ok ()
    ∧ ((DeviceHandle.mk ClaimedInterfaces.empty).claim_interface 6 (Except.ok ())).2.2 = 1
    ∧ ClaimedInterfaces.is_claimed
        ((DeviceHandle.mk ClaimedInterfaces.empty).claim_interface 6 (Except.ok ())).2.1.interfaces 6
      = true := by
  have h := (C8_session_claim_release (DeviceHandle.mk ClaimedInterfaces.empty) 6
    (by decide) (by decide) (by decide)).2.2.1 (by decide)
  exact ⟨by decide, by decide, by decide, h.1, h.2.1, h.2.2⟩

theorem any_not_all (l : List Nat) :
    l.any (fun b => b != 0) = !(l.all (fun b => b == 0)) := by
  induction l with
  | nil => rfl
  | cons a t ih =>
    rw [List.any_cons, List.all_cons, Bool.not_and, ← ih]
    rfl

/-- C7: for every well-formed bitset state and every interface number below
256, `claim` is idempotent and leaves `is_claimed` true without touching any
other bit, `release` of an unclaimed interface is the identity, and
`any_claimed` is true exactly when some interface is claimed, which is exactly
when `none_claimed` is false. -/
theorem C7_bitset_algebra (c : List Nat) (n : Nat)
    (hlen : c.length = 32) (hbytes : ∀ b ∈ c, b < 256) (hn : n < 256) :
    ClaimedInterfaces.claim (ClaimedInterfaces.claim c n) n = ClaimedInterfaces.claim c n
    ∧ ClaimedInterfaces.is_claimed (ClaimedInterfaces.claim c n) n = true
    ∧ (∀ m, m < 256 → m ≠ n →
        ClaimedInterfaces.is_claimed (ClaimedInterfaces.claim c n) m
          = ClaimedInterfaces.is_claimed c m)
    ∧ (ClaimedInterfaces.is_claimed c n = false → ClaimedInterfaces.release c n = c)
    ∧ (ClaimedInterfaces.any_claimed c = true ↔
        ∃ m, m < 256 ∧ ClaimedInterfaces.is_claimed c m = true)
    ∧ ClaimedInterfaces.any_claimed c = !(ClaimedInterfaces.none_claimed c) := by
  have hdiv : n / 8 < c.length := by rw [hlen]; omega
  have hmod : n % 8 < 8 := Nat.mod_lt _ (by omega)
  have hbyte := getD_lt_256 c hbytes (n / 8)
  refine ⟨?_, ?_, ?_, ?_, ?_, ?_⟩
  · unfold ClaimedInterfaces.claim ClaimedInterfaces.byte_index ClaimedInterfaces.bit_index
    rw [getD_set_self _ _ _ hdiv, List.set_set, byte_lor_bit_idem _ hbyte _ hmod]
  · unfold ClaimedInterfaces.is_claimed ClaimedInterfaces.claim
      ClaimedInterfaces.byte_index ClaimedInterfaces.bit_index
    rw [getD_set_self _ _ _ hdiv]
    simpa [bne_iff_ne] using byte_lor_bit_test _ hbyte _ hmod
  · intro m hm hmn
    by_cases hbeq : m / 8 = n / 8
    · have hmmod : m % 8 ≠ n % 8 := by omega
      unfold ClaimedInterfaces.is_claimed ClaimedInterfaces.claim
        ClaimedInterfaces.byte_index ClaimedInterfaces.bit_index
      rw [hbeq, getD_set_self _ _ _ hdiv,
        byte_lor_bit_other _ hbyte _ hmod _ (Nat.mod_lt _ (by omega)) hmmod]
    · unfold ClaimedInterfaces.is_claimed ClaimedInterfaces.claim
        ClaimedInterfaces.byte_index ClaimedInterfaces.bit_index
      rw [getD_set_ne _ _ _ _ (fun hh => hbeq hh.symm)]
  · intro hnc
    have h0 : c.getD (n / 8) 0 &&& (1 <<< (n % 8)) = 0 := by
      unfold ClaimedInterfaces.is_claimed ClaimedInterfaces.byte_index
        ClaimedInterfaces.bit_index at hnc
      simpa using hnc
    unfold ClaimedInterfaces.release ClaimedInterfaces.byte_index ClaimedInterfaces.bit_index
    rw [byte_release_noop _ hbyte _ hmod h0, set_getD_self_eq _ _ hdiv]
  · constructor
    · intro h
      obtain ⟨b, hmem, hb⟩ := List.any_eq_true.mp h
      obtain ⟨i, hilt, hbi⟩ := List.mem_iff_getElem.mp hmem
      have hbne : b ≠ 0 := by simpa using hb
      obtain ⟨k, hk8, hkbit⟩ := byte_nonzero_has_bit b (hbytes b hmem) hbne
      have hi32 : i < 32 := by rw [hlen] at hilt; exact hilt
      refine ⟨8 * i + k, by omega, ?_⟩
      unfold ClaimedInterfaces.is_claimed ClaimedInterfaces.byte_index
        ClaimedInterfaces.bit_index
      have hdiv2 : (8 * i + k) / 8 = i := by omega
      have hmod2 : (8 * i + k) % 8 = k := by omega
      have hgd : c.getD i 0 = b := by
        rw [List.getD_eq_getElem?_getD, List.getElem?_eq_getElem hilt, hbi]
        rfl
      rw [hdiv2, hmod2, hgd]
      simpa using hkbit
    · rintro ⟨m, hm, hcl⟩
      apply List.any_eq_true.mpr
      unfold ClaimedInterfaces.is_claimed ClaimedInterfaces.byte_index
        ClaimedInterfaces.bit_index at hcl
      have hbne : c.getD (m / 8) 0 ≠ 0 := by
        intro h0
        rw [h0] at hcl
        simp [Nat.zero_and] at hcl
      have hmd : m / 8 < c.length := by rw [hlen]; omega
      have hget : c.getD (m / 8) 0 = c.get ⟨m / 8, hmd⟩ := by
        rw [List.getD_eq_getElem?_getD, List.getElem?_eq_getElem hmd]
        rfl
      refine ⟨c.getD (m / 8) 0, ?_, by simpa using hbne⟩
      rw [hget]
      exact List.get_mem c (m / 8) hmd
  · unfold ClaimedInterfaces.any_claimed ClaimedInterfaces.none_claimed
    exact any_not_all c

/-- C7 witness: the algebra applied to the concrete state with interface 6
claimed on a fresh 32-byte bitset. -/
theorem C7_bitset_algebra_witness :
    (ClaimedInterfaces.claim ClaimedInterfaces.empty 6).length = 32
    ∧ (∀ b ∈ ClaimedInterfaces.claim ClaimedInterfaces.empty 6, b < 256)
    ∧ (6 : Nat) < 256
    ∧ (ClaimedInterfaces.claim (ClaimedInterfaces.claim (ClaimedInterfaces.claim ClaimedInterfaces.empty 6) 6) 6
        = ClaimedInterfaces.claim (ClaimedInterfaces.claim ClaimedInterfaces.empty 6) 6
       ∧ ClaimedInterfaces.is_claimed
          (ClaimedInterfaces.claim (ClaimedInterfaces.claim ClaimedInterfaces.empty 6) 6) 6 = true
       ∧ (∀ m, m < 256 → m ≠ 6 →
          ClaimedInterfaces.is_claimed
            (ClaimedInterfaces.claim (ClaimedInterfaces.claim ClaimedInterfaces.empty 6) 6) m
            = ClaimedInterfaces.is_claimed (ClaimedInterfaces.claim ClaimedInterfaces.empty 6) m)
       ∧ (ClaimedInterfaces.is_claimed (ClaimedInterfaces.claim ClaimedInterfaces.empty 6) 6 = false →
          ClaimedInterfaces.release (ClaimedInterfaces.claim ClaimedInterfaces.empty 6) 6
            = ClaimedInterfaces.claim ClaimedInterfaces.empty 6)
       ∧ (ClaimedInterfaces.any_claimed (ClaimedInterfaces.claim ClaimedInterfaces.empty 6) = true ↔
          ∃ m, m < 256 ∧ ClaimedInterfaces.is_claimed (ClaimedInterfaces.claim ClaimedInterfaces.empty 6) m = true)
       ∧ ClaimedInterfaces.any_claimed (ClaimedInterfaces.claim ClaimedInterfaces.empty 6)
          = !(ClaimedInterfaces.none_claimed (ClaimedInterfaces.claim ClaimedInterfaces.empty 6))) :=
  ⟨by decide, by decide, by decide,
    C7_bitset_algebra (ClaimedInterfaces.claim ClaimedInterfaces.empty 6) 6
      (by decide) (by decide) (by decide)⟩

/-- C5: the active flag of the completion link is true exactly while a
submission is pending with its callback not yet fired. Concretely: a submit
that passes validation and whose native submit succeeds leaves `active` true;
a failed native submit restores `active` to false (before the error is
returned synchronously, with nothing posted to the channel); the completion
callback's only effects are clearing `active` and posting one notification
into the single-slot channel (buffer and descriptor untouched); and along
every protocol-respecting trace (`wfTrace`), `active` equals "the ghost count
of pending-not-yet-completed submissions is nonzero". -/
theorem C5_active_flag_bridge :
    (∀ (s : SafeTransfer) (r : Bool), s.check_transfer r = RResult.ok () →
        (s.submit_asynchronously r (Except.ok ())).1 = RResult.ok ()
        ∧ ((s.submit_asynchronously r (Except.ok ())).2.1).active = true)
    ∧ (∀ (s : SafeTransfer) (r : Bool) (e : Error), s.check_transfer r = RResult.ok () →
        (s.submit_asynchronously r (Except.error e)).1 = RResult.err e
        ∧ ((s.submit_asynchronously r (Except.error e)).2.1).active = false
        ∧ ((s.submit_asynchronously r (Except.error e)).2.1).slot = s.slot)
    ∧ (∀ s : SafeTransfer, s.send_completion =
        { buf := s.buf, transfer := s.transfer, active := false, slot := true })
    ∧ (∀ (tr : List Event) (s : SafeTransfer) (p : Nat),
        s.active = (p != 0) → wfTrace (s, p) tr = true →
        ((ghostRun (s, p) tr).1).active = ((ghostRun (s, p) tr).2 != 0)) := by
  refine ⟨?_, ?_, ?_, ?_⟩
  · intro s r h
    simp [SafeTransfer.submit_asynchronously, h, SafeTransfer.set_active]
  · intro s r e h
    simp [SafeTransfer.submit_asynchronously, h, SafeTransfer.set_active]
  · intro s
    rfl
  · intro tr
    induction tr with
    | nil =>
      intro s p h _
      simpa [ghostRun] using h
    | cons ev rest ih =>
      intro s p h hwf
      simp only [wfTrace, Bool.and_eq_true] at hwf
      obtain ⟨hguard, hrest⟩ := hwf
      simp only [ghostRun]
      cases ev with
      | submit r d =>
        have hp0 : p = 0 := by simpa using hguard
        subst hp0
        cases hc : s.check_transfer r with
        | ok u =>
          cases u
          cases d with
          | ok u2 =>
            cases u2
            have hstep : ghostStep (s, 0) (Event.submit r (Except.ok ()))
                = (s.set_active true, 1) := by
              simp [ghostStep, SafeTransfer.submit_asynchronously, hc]
            rw [hstep] at hrest ⊢
            exact ih _ _ (by simp [SafeTransfer.set_active]) hrest
          | error e =>
            have hstep : ghostStep (s, 0) (Event.submit r (Except.error e))
                = ((s.set_active true).set_active false, 0) := by
              simp [ghostStep, SafeTransfer.submit_asynchronously, hc]
            rw [hstep] at hrest ⊢
            exact ih _ _ (by simp [SafeTransfer.set_active]) hrest
        | err e =>
          have hstep : ghostStep (s, 0) (Event.submit r d) = (s, 0) := by
            simp [ghostStep, SafeTransfer.submit_asynchronously, hc]
          rw [hstep] at hrest ⊢
          exact ih _ _ h hrest
        | panics =>
          have hstep : ghostStep (s, 0) (Event.submit r d) = (s, 0) := by
            simp [ghostStep, SafeTransfer.submit_asynchronously, hc]
          rw [hstep] at hrest ⊢
          exact ih _ _ h hrest
      | callback =>
        have hp1 : p = 1 := by simpa using hguard
        subst hp1
        have hstep : ghostStep (s, 1) Event.callback = (s.send_completion, 0) := rfl
        rw [hstep] at hrest ⊢
        exact ih _ _ (by simp [SafeTransfer.send_completion]) hrest

/-- C5 witness: the invariant along the concrete trace "submit a bulk read,
driver accepts, callback fires" starting from the inactive `freshBulk`. -/
theorem C5_active_flag_bridge_witness :
    freshBulk.active = ((0 : Nat) != 0)
    ∧ wfTrace (freshBulk, 0) [Event.submit true (Except.ok ()), Event.callback] = true
    ∧ ((ghostRun (freshBulk, 0) [Event.submit true (Except.ok ()), Event.callback]).1).active
      = ((ghostRun (freshBulk, 0) [Event.submit true (Except.ok ()), Event.callback]).2 != 0) :=
  ⟨by decide, by decide,
    C5_active_flag_bridge.2.2.2 [Event.submit true (Except.ok ()), Event.callback]
      freshBulk 0 (by decide) (by decide)⟩

end Usbw
